import Mathlib

/-!
Shallow embedding of `packages/rpc/src/client/message-subject.ts`
(`RpcMessageSubject`), the client-side correlation handle of the RPC
transport.  The mutable class instance becomes an explicit state record;
the callback fields (`onReplyCallback`, `rejected`) become tagged variants;
every externally observable action (invoking `release`, settling an
accessor's promise, invoking a user-installed callback, an exception
escaping a synchronous entry point) is recorded as an event.  Each accessor
call allocates a fresh promise id so that settlements of distinct promises
can be told apart in the trace.
-/

namespace MessageSubject

/-- Error values flowing through the subject: `RpcError` instances built by
the subject itself (`new RpcError('Connection closed')`), the
`UnexpectedMessageType` error carrying the expected and the actually
received type tag, and opaque external errors (carried server errors,
disconnect causes, parse errors). -/
inductive EValue where
  | rpcError (msg : String)
  | unexpectedMessageType (expected actual : Nat)
  | extErr (n : Nat)
deriving DecidableEq, Repr

instance : DecidableEq (Except EValue Nat) := fun a b =>
  match a, b with
  | .ok x, .ok y =>
      if h : x = y then isTrue (by rw [h])
      else isFalse (by intro hh; cases hh; exact h rfl)
  | .error x, .error y =>
      if h : x = y then isTrue (by rw [h])
      else isFalse (by intro hh; cases hh; exact h rfl)
  | .ok _, .error _ => isFalse (by intro hh; cases hh)
  | .error _, .ok _ => isFalse (by intro hh; cases hh)

/-- An inbound reply message as the subject observes it: a numeric type tag
(`next.type`), the error predicate (`next.isError()`), the carried error
(`next.getError()`), and the result of the externally supplied body parse
(`next.parseBody(schema)`), which either returns a body or throws. -/
structure RpcMessage where
  type : Nat
  isError : Bool
  getError : EValue
  parseBody : Except EValue Nat
deriving DecidableEq, Repr

/-- Values with which an accessor's promise can resolve:
`resolve(undefined)`, `resolve(next)` (the raw message), or
`resolve(next.parseBody(schema))` (a parsed body). -/
inductive RValue where
  | undef
  | rawMessage (m : RpcMessage)
  | parsedBody (b : Nat)
deriving DecidableEq, Repr

/-- Modelled from the spec: the distinguished acknowledgement type tag
(`RpcTypes.Ack` from the rpc model module, which is not among the sources);
only its identity matters, never its numeric value. -/
def rpcAck : Nat := 0

/-- The function currently stored in the `onReplyCallback` field:
* `catchDefault` — the initial prototype method / `catchOnReplyCallback`,
  which buffers the message into `uncatchedNext`;
* `noop` — installed by `disconnect`;
* `user id` — an arbitrary callback installed through `onReply`, observed
  only through the events it produces;
* one closure per accessor, capturing the promise id of that accessor's
  pending result and, where applicable, the expected type tag and whether a
  schema was supplied. -/
inductive Listener where
  | catchDefault
  | noop
  | user (id : Nat)
  | ack (pid : Nat)
  | waitMsg (pid : Nat)
  | waitNextL (pid : Nat) (ty : Nat) (schema : Bool)
  | firstL (pid : Nat) (ty : Nat) (schema : Bool)
deriving DecidableEq, Repr

/-- The function currently stored in the `rejected` field: either the
`reject` of the promise with id `pid`, or an arbitrary callback installed
through `onRejected`. -/
inductive RejCb where
  | promiseReject (pid : Nat)
  | userRej (id : Nat)
deriving DecidableEq, Repr

/-- Externally observable actions of a subject. -/
inductive Event where
  | released
  | resolveCalled (pid : Nat) (v : RValue)
  | rejectCalled (pid : Nat) (e : EValue)
  | userReplyCalled (id : Nat) (m : RpcMessage)
  | userRejCalled (id : Nat) (e : EValue)
  | escaped (e : EValue)
deriving DecidableEq, Repr

/-- The mutable state of one `RpcMessageSubject` instance.  `nextPid` is the
fresh-promise-id counter of the model. -/
structure RpcMessageSubject where
  uncatchedNext : Option RpcMessage
  onReplyCallback : Listener
  rejected : Option RejCb
  nextPid : Nat
deriving DecidableEq, Repr

/-- A freshly constructed subject: no buffered message, the default
buffering listener, no rejection callback. -/
def RpcMessageSubject.mkSubject : RpcMessageSubject :=
  { uncatchedNext := none, onReplyCallback := .catchDefault,
    rejected := none, nextPid := 0 }

/-- Invoking the currently installed reply listener with message `m`: the
bodies of the default `onReplyCallback` and of each accessor's `onReply`
closure, straight from the source.  Returns the new state, the events
produced, and `some e` when the callback threw `e` synchronously. -/
def invokeListener (s : RpcMessageSubject) (m : RpcMessage) :
    RpcMessageSubject × List Event × Option EValue :=
  match s.onReplyCallback with
  | .catchDefault => ({ s with uncatchedNext := some m }, [], none)
  | .noop => (s, [], none)
  | .user id => (s, [.userReplyCalled id m], none)
  | .ack pid =>
      let s1 := { s with onReplyCallback := .catchDefault, rejected := none }
      let out : List Event × Option EValue :=
        if m.type = rpcAck then
          ([.released, .resolveCalled pid .undef], none)
        else if m.isError then
          ([.released, .rejectCalled pid m.getError], none)
        else
          ([.released,
            .rejectCalled pid (.unexpectedMessageType rpcAck m.type)], none)
      (s1, out)
  | .waitMsg pid =>
      ({ s with onReplyCallback := .catchDefault },
        [.resolveCalled pid (.rawMessage m)], none)
  | .waitNextL pid ty schema =>
      let s1 := { s with onReplyCallback := .catchDefault }
      let out : List Event × Option EValue :=
        if m.type = ty then
          if schema then
            match m.parseBody with
            | .ok b => ([.resolveCalled pid (.parsedBody b)], none)
            | .error e => ([], some e)
          else
            ([.resolveCalled pid .undef], none)
        else if m.isError then
          ([.released, .rejectCalled pid m.getError], none)
        else
          ([.rejectCalled pid (.unexpectedMessageType ty m.type)], none)
      (s1, out)
  | .firstL pid ty schema =>
      let s1 := { s with onReplyCallback := .catchDefault }
      let out : List Event × Option EValue :=
        if m.type = ty then
          if schema then
            match m.parseBody with
            | .ok b => ([.released, .resolveCalled pid (.parsedBody b)], none)
            | .error e => ([.released, .rejectCalled pid e], none)
          else
            ([.released, .resolveCalled pid (.rawMessage m)], none)
        else if m.isError then
          ([.released, .released, .rejectCalled pid m.getError], none)
        else
          ([.released,
            .rejectCalled pid (.unexpectedMessageType ty m.type)], none)
      (s1, out)

/-- `next(next)`: the delivery entry point; invokes the installed listener. -/
def RpcMessageSubject.next (s : RpcMessageSubject) (m : RpcMessage) :
    RpcMessageSubject × List Event × Option EValue :=
  invokeListener s m

/-- `disconnect(error?)`: invokes the rejection callback (with the given
error, defaulting to `new RpcError('Connection closed')`) and clears it,
sets the listener to the permanent no-op, invokes `release()`. -/
def RpcMessageSubject.disconnect (s : RpcMessageSubject)
    (e : Option EValue) : RpcMessageSubject × List Event :=
  let err := e.getD (.rpcError "Connection closed")
  let r : RpcMessageSubject × List Event :=
    match s.rejected with
    | some (.promiseReject pid) =>
        ({ s with rejected := none }, [.rejectCalled pid err])
    | some (.userRej id) =>
        ({ s with rejected := none }, [.userRejCalled id err])
    | none => (s, [])
  ({ r.1 with onReplyCallback := .noop }, r.2 ++ [.released])

/-- `onRejected(callback)`: replaces the rejection callback. -/
def RpcMessageSubject.onRejected (s : RpcMessageSubject) (c : RejCb) :
    RpcMessageSubject :=
  { s with rejected := some c }

/-- `onReply(callback)`: installs `callback` as the listener; if a message
is buffered, invokes `callback` with it synchronously and — provided the
callback returned normally — clears the buffer (the clearing statement is
skipped when the callback throws). -/
def RpcMessageSubject.onReply (s : RpcMessageSubject) (c : Listener) :
    RpcMessageSubject × List Event × Option EValue :=
  let s1 := { s with onReplyCallback := c }
  match s.uncatchedNext with
  | none => (s1, [], none)
  | some m =>
      let r := invokeListener s1 m
      match r.2.2 with
      | none => ({ r.1 with uncatchedNext := none }, r.2.1, none)
      | some e => (r.1, r.2.1, some e)

/-- The body shared by the four accessors: store this promise's `reject`
into `rejected`, then `onReply` the accessor's closure.  A throw escaping
the synchronous buffered replay is caught by the promise-executor wrapper
(`asyncOperation`, modelled from the spec's single-resolution result) and
rejects the promise. -/
def runExecutor (s : RpcMessageSubject) (pid : Nat) (c : Listener) :
    RpcMessageSubject × List Event :=
  let s1 := { s with rejected := some (.promiseReject pid) }
  let r := s1.onReply c
  match r.2.2 with
  | none => (r.1, r.2.1)
  | some e => (r.1, r.2.1 ++ [.rejectCalled pid e])

/-- `ackThenClose()`. -/
def RpcMessageSubject.ackThenClose (s : RpcMessageSubject) :
    RpcMessageSubject × List Event :=
  runExecutor { s with nextPid := s.nextPid + 1 } s.nextPid (.ack s.nextPid)

/-- `waitNextMessage()`. -/
def RpcMessageSubject.waitNextMessage (s : RpcMessageSubject) :
    RpcMessageSubject × List Event :=
  runExecutor { s with nextPid := s.nextPid + 1 } s.nextPid
    (.waitMsg s.nextPid)

/-- `waitNext(type, schema?)`. -/
def RpcMessageSubject.waitNext (s : RpcMessageSubject) (ty : Nat)
    (schema : Bool) : RpcMessageSubject × List Event :=
  runExecutor { s with nextPid := s.nextPid + 1 } s.nextPid
    (.waitNextL s.nextPid ty schema)

/-- `firstThenClose(type, schema?)`. -/
def RpcMessageSubject.firstThenClose (s : RpcMessageSubject) (ty : Nat)
    (schema : Bool) : RpcMessageSubject × List Event :=
  runExecutor { s with nextPid := s.nextPid + 1 } s.nextPid
    (.firstL s.nextPid ty schema)

/-- The operations an external collaborator can perform on a subject. -/
inductive Op where
  | next (m : RpcMessage)
  | disconnect (e : Option EValue)
  | onReplyUser (id : Nat)
  | onRejectedUser (id : Nat)
  | ackThenClose
  | waitNextMessage
  | waitNext (ty : Nat) (schema : Bool)
  | firstThenClose (ty : Nat) (schema : Bool)
deriving DecidableEq, Repr

/-- One external operation.  An exception escaping a synchronous entry
point (`next` with a throwing listener) propagates to the external caller
and is recorded as an `escaped` event. -/
def step (s : RpcMessageSubject) : Op → RpcMessageSubject × List Event
  | .next m =>
      let r := s.next m
      match r.2.2 with
      | none => (r.1, r.2.1)
      | some e => (r.1, r.2.1 ++ [.escaped e])
  | .disconnect e => s.disconnect e
  | .onReplyUser id =>
      let r := s.onReply (.user id)
      match r.2.2 with
      | none => (r.1, r.2.1)
      | some e => (r.1, r.2.1 ++ [.escaped e])
  | .onRejectedUser id => (s.onRejected (.userRej id), [])
  | .ackThenClose => s.ackThenClose
  | .waitNextMessage => s.waitNextMessage
  | .waitNext ty schema => s.waitNext ty schema
  | .firstThenClose ty schema => s.firstThenClose ty schema

/-- Run a sequence of operations from a state, collecting events. -/
def run (s : RpcMessageSubject) : List Op → RpcMessageSubject × List Event
  | [] => (s, [])
  | op :: rest =>
      let r1 := step s op
      let r2 := run r1.1 rest
      (r2.1, r1.2 ++ r2.2)

/-- Run from a freshly constructed subject. -/
def runInit (ops : List Op) : RpcMessageSubject × List Event :=
  run RpcMessageSubject.mkSubject ops

/-- The events of a run from a fresh subject. -/
def events (ops : List Op) : List Event :=
  (runInit ops).2

/-- The final state of a run from a fresh subject. -/
def finalState (ops : List Op) : RpcMessageSubject :=
  (runInit ops).1

/-- How many times `release()` was invoked during a run. -/
def releaseCount (ops : List Op) : Nat :=
  (events ops).countP (fun e => decide (e = .released))

/-- Is the installed listener one of the four accessors' closures? -/
def isAccessorListener : Listener → Bool
  | .ack _ => true
  | .waitMsg _ => true
  | .waitNextL _ _ _ => true
  | .firstL _ _ _ => true
  | _ => false

/-- A plain acknowledgement reply. -/
def ackReply : RpcMessage := ⟨rpcAck, false, .extErr 0, .ok 0⟩

/-- A non-error reply with type tag 9. -/
def plainReply9 : RpcMessage := ⟨9, false, .extErr 0, .ok 0⟩

/-- An error-tagged reply with type tag 9 carrying error 7. -/
def errReply9 : RpcMessage := ⟨9, true, .extErr 7, .ok 0⟩

/-- A non-error reply with type tag 5 whose body parse throws error 3. -/
def parseErrReply5 : RpcMessage := ⟨5, false, .extErr 0, .error (.extErr 3)⟩

/-- An error-tagged reply with type tag 5 carrying error 7, whose body
parses to 21. -/
def errReply5 : RpcMessage := ⟨5, true, .extErr 7, .ok 21⟩

/-- C1: the claim demands that `release` be invoked exactly once on every
terminal path; the code violates it.  `firstThenClose(5)` followed by an
error-tagged reply of type 9 invokes `release` twice (once unconditionally
at the listener's entry, once again in the `isError` branch); a disconnect
after the terminal outcome of `ackThenClose`, and two disconnects, also
each invoke `release` twice. -/
theorem C1_release_twice :
    releaseCount [.firstThenClose 5 false, .next errReply9] = 2 ∧
    releaseCount [.ackThenClose, .next ackReply, .disconnect none] = 2 ∧
    releaseCount [.disconnect none, .disconnect none] = 2 := by decide

/-- C2: a reply delivered before any listener is installed is buffered;
the next `onReply(f)` invokes `f` exactly once, synchronously, with the
buffered message, and the buffer is empty afterward; when nothing is
buffered, `onReply(f)` installs `f` without invoking it. -/
theorem C2_buffer_then_replay (m : RpcMessage) (id : Nat) :
    events [.next m, .onReplyUser id] = [.userReplyCalled id m] ∧
    (finalState [.next m, .onReplyUser id]).uncatchedNext = none ∧
    (finalState [.next m, .onReplyUser id]).onReplyCallback = .user id ∧
    events [.onReplyUser id] = [] ∧
    (finalState [.onReplyUser id]).onReplyCallback = .user id ∧
    (finalState [.onReplyUser id]).uncatchedNext = none :=
  ⟨rfl, rfl, rfl, rfl, rfl, rfl⟩

/-- C3: `disconnect(error?)` invokes the installed rejection callback with
the supplied error — defaulting to `RpcError('Connection closed')` — and
clears it, sets the listener to the permanent no-op (after which delivery
leaves the state unchanged and produces no events), and invokes
`release()`. -/
theorem C3_disconnect (s : RpcMessageSubject) (e : Option EValue) :
    (s.disconnect e).1.onReplyCallback = .noop ∧
    (s.disconnect e).1.rejected = none ∧
    (s.disconnect e).2 =
      (match s.rejected with
       | some (.promiseReject pid) =>
           [Event.rejectCalled pid (e.getD (.rpcError "Connection closed"))]
       | some (.userRej id) =>
           [Event.userRejCalled id (e.getD (.rpcError "Connection closed"))]
       | none => []) ++ [Event.released] ∧
    ∀ m : RpcMessage, ((s.disconnect e).1).next m = ((s.disconnect e).1, [], none) := by
  obtain ⟨u, l, rj, n⟩ := s
  match rj with
  | none => exact ⟨rfl, rfl, rfl, fun m => rfl⟩
  | some (.promiseReject pid) => exact ⟨rfl, rfl, rfl, fun m => rfl⟩
  | some (.userRej id) => exact ⟨rfl, rfl, rfl, fun m => rfl⟩

/-- C4, counterexample: the claim says a plain type mismatch leaves the
handle un-released in both `waitNext` and `firstThenClose`; but
`firstThenClose(5)` receiving a non-error reply of type 9 invokes
`release` once (its listener releases unconditionally on entry). -/
theorem C4_counterexample :
    events [.firstThenClose 5 false, .next plainReply9] =
      [.released, .rejectCalled 0 (.unexpectedMessageType 5 9)] ∧
    releaseCount [.firstThenClose 5 false, .next plainReply9] = 1 := by decide

/-- C4, amended: on a plain type mismatch (neither of type `ty` nor
error-tagged) `waitNext` rejects with the unexpected-message-type error and
leaves the handle un-released, in contrast with its error-tagged-reply path
which does release; `firstThenClose`, however, releases on every delivered
reply, including the plain mismatch. -/
theorem C4_mismatch_release (ty : Nat) (schema : Bool) (m mErr : RpcMessage)
    (h1 : m.type ≠ ty) (h2 : m.isError = false)
    (h3 : mErr.type ≠ ty) (h4 : mErr.isError = true) :
    events [.waitNext ty schema, .next m] =
      [.rejectCalled 0 (.unexpectedMessageType ty m.type)] ∧
    events [.firstThenClose ty schema, .next m] =
      [.released, .rejectCalled 0 (.unexpectedMessageType ty m.type)] ∧
    events [.waitNext ty schema, .next mErr] =
      [.released, .rejectCalled 0 mErr.getError] := by
  refine ⟨?_, ?_, ?_⟩ <;>
    simp [events, runInit, run, step, RpcMessageSubject.next,
      RpcMessageSubject.waitNext, RpcMessageSubject.firstThenClose,
      runExecutor, RpcMessageSubject.onReply, invokeListener,
      RpcMessageSubject.mkSubject, h1, h2, h3, h4]

/-- C4, witness for the amended theorem at type 5, a plain reply of type 9
and an error reply of type 9. -/
theorem C4_mismatch_release_witness :
    (plainReply9.type ≠ 5 ∧ plainReply9.isError = false ∧
      errReply9.type ≠ 5 ∧ errReply9.isError = true) ∧
    (events [.waitNext 5 false, .next plainReply9] =
      [.rejectCalled 0 (.unexpectedMessageType 5 9)] ∧
    events [.firstThenClose 5 false, .next plainReply9] =
      [.released, .rejectCalled 0 (.unexpectedMessageType 5 9)] ∧
    events [.waitNext 5 false, .next errReply9] =
      [.released, .rejectCalled 0 (.extErr 7)]) :=
  ⟨⟨by decide, rfl, by decide, rfl⟩,
    C4_mismatch_release 5 false plainReply9 errReply9
      (by decide) rfl (by decide) rfl⟩

/-- C5: `waitNext(ty)` resolves only on a reply whose type tag equals `ty`
— on a reply with a different tag no `resolve` call occurs — and a
different tag that is not error-tagged rejects with the
unexpected-message-type error carrying expected `ty` and the received
tag. -/
theorem C5_type_matching (ty : Nat) (schema : Bool) (m : RpcMessage)
    (h1 : m.type ≠ ty) :
    (∀ v : RValue,
      Event.resolveCalled 0 v ∉ events [.waitNext ty schema, .next m]) ∧
    (m.isError = false →
      events [.waitNext ty schema, .next m] =
        [.rejectCalled 0 (.unexpectedMessageType ty m.type)]) := by
  cases hb : m.isError with
  | false =>
      constructor
      · intro v
        simp [events, runInit, run, step, RpcMessageSubject.next,
          RpcMessageSubject.waitNext, runExecutor, RpcMessageSubject.onReply,
          invokeListener, RpcMessageSubject.mkSubject, h1, hb]
      · intro _
        simp [events, runInit, run, step, RpcMessageSubject.next,
          RpcMessageSubject.waitNext, runExecutor, RpcMessageSubject.onReply,
          invokeListener, RpcMessageSubject.mkSubject, h1, hb]
  | true =>
      constructor
      · intro v
        simp [events, runInit, run, step, RpcMessageSubject.next,
          RpcMessageSubject.waitNext, runExecutor, RpcMessageSubject.onReply,
          invokeListener, RpcMessageSubject.mkSubject, h1, hb]
      · intro hf
        simp [hb] at hf

/-- C5, witness at type 5 and a plain reply of type 9. -/
theorem C5_type_matching_witness :
    plainReply9.type ≠ 5 ∧
    Event.resolveCalled 0 .undef ∉ events [.waitNext 5 false, .next plainReply9] ∧
    events [.waitNext 5 false, .next plainReply9] =
      [.rejectCalled 0 (.unexpectedMessageType 5 9)] := by
  have h := C5_type_matching 5 false plainReply9 (by decide)
  exact ⟨by decide, h.1 .undef, h.2 rfl⟩

/-- C6: delivery is inert after a terminal transition — with the default
buffering listener installed (as restored by every accessor outcome),
`next` only buffers the message, produces no events and does not throw;
with the permanent no-op installed by `disconnect`, `next` changes nothing;
and after any accessor listener fires, the installed listener is back to
the default buffering listener. -/
theorem C6_post_terminal (s : RpcMessageSubject) (m : RpcMessage) :
    (s.onReplyCallback = .catchDefault →
      s.next m = ({ s with uncatchedNext := some m }, [], none)) ∧
    (s.onReplyCallback = .noop → s.next m = (s, [], none)) ∧
    (isAccessorListener s.onReplyCallback = true →
      (s.next m).1.onReplyCallback = .catchDefault) := by
  obtain ⟨u, l, rj, n⟩ := s
  refine ⟨fun h => ?_, fun h => ?_, fun h => ?_⟩
  · cases h; rfl
  · cases h; rfl
  · cases l with
    | catchDefault => simp [isAccessorListener] at h
    | noop => simp [isAccessorListener] at h
    | user id => simp [isAccessorListener] at h
    | ack pid => rfl
    | waitMsg pid => rfl
    | waitNextL pid ty schema => rfl
    | firstL pid ty schema => rfl

/-- C6, witness: on a fresh subject the default listener is installed and
delivery of a type-9 reply only buffers it. -/
theorem C6_post_terminal_witness :
    RpcMessageSubject.mkSubject.onReplyCallback = .catchDefault ∧
    RpcMessageSubject.mkSubject.next plainReply9 =
      ({ RpcMessageSubject.mkSubject with uncatchedNext := some plainReply9 },
        [], none) :=
  ⟨rfl, (C6_post_terminal RpcMessageSubject.mkSubject plainReply9).1 rfl⟩

/-- C7, counterexample: the claim says all four accessors surface the
carried error and release on an error-tagged reply, but `waitNextMessage`
resolves with the raw message: delivering the error-tagged type-9 reply to
an awaiting `waitNextMessage` produces a single `resolve` with the raw
message, no rejection and no release. -/
theorem C7_counterexample :
    events [.waitNextMessage, .next errReply9] =
      [.resolveCalled 0 (.rawMessage errReply9)] ∧
    releaseCount [.waitNextMessage, .next errReply9] = 0 := by decide

/-- C7, amended: in `ackThenClose`, `waitNext` and `firstThenClose`, an
error-tagged reply whose type tag differs from the acknowledgement tag
resp. the awaited type surfaces the carried error verbatim as the
accessor's failure and invokes `release` (`firstThenClose` invokes it
twice); `waitNextMessage` instead resolves with the raw message, leaving
inspection to the caller, and does not release. -/
theorem C7_error_reply_terminal (ty : Nat) (schema : Bool) (m : RpcMessage)
    (hErr : m.isError = true) (hAck : m.type ≠ rpcAck) (hTy : m.type ≠ ty) :
    events [.ackThenClose, .next m] =
      [.released, .rejectCalled 0 m.getError] ∧
    events [.waitNext ty schema, .next m] =
      [.released, .rejectCalled 0 m.getError] ∧
    events [.firstThenClose ty schema, .next m] =
      [.released, .released, .rejectCalled 0 m.getError] ∧
    events [.waitNextMessage, .next m] =
      [.resolveCalled 0 (.rawMessage m)] := by
  refine ⟨?_, ?_, ?_, ?_⟩ <;>
    simp [events, runInit, run, step, RpcMessageSubject.next,
      RpcMessageSubject.ackThenClose, RpcMessageSubject.waitNextMessage,
      RpcMessageSubject.waitNext, RpcMessageSubject.firstThenClose,
      runExecutor, RpcMessageSubject.onReply, invokeListener,
      RpcMessageSubject.mkSubject, hErr, hAck, hTy]

/-- C7, witness for the amended theorem at type 5 and the error-tagged
type-9 reply carrying error 7. -/
theorem C7_error_reply_terminal_witness :
    (errReply9.isError = true ∧ errReply9.type ≠ rpcAck ∧
      errReply9.type ≠ 5) ∧
    (events [.ackThenClose, .next errReply9] =
      [.released, .rejectCalled 0 (.extErr 7)] ∧
    events [.waitNext 5 false, .next errReply9] =
      [.released, .rejectCalled 0 (.extErr 7)] ∧
    events [.firstThenClose 5 false, .next errReply9] =
      [.released, .released, .rejectCalled 0 (.extErr 7)] ∧
    events [.waitNextMessage, .next errReply9] =
      [.resolveCalled 0 (.rawMessage errReply9)]) :=
  ⟨⟨rfl, by decide, by decide⟩,
    C7_error_reply_terminal 5 false errReply9 rfl (by decide) (by decide)⟩

/-- C8, counterexample: the claim says a body-parse error while handling a
type-matched reply rejects the pending result instead of escaping; but for
`waitNext(5)` a type-5 reply whose parse throws error 3 makes the error
escape the delivery call synchronously, with no settlement of the pending
result and no release. -/
theorem C8_counterexample :
    events [.waitNext 5 true, .next parseErrReply5] =
      [.escaped (.extErr 3)] := by decide

/-- C8, amended: for `firstThenClose`, a body-parse error on a type-matched
reply is caught and surfaced as the accessor's failure, and `release` is
still invoked; for `waitNext`, the parse error escapes the delivery call
synchronously and the pending result stays unsettled. -/
theorem C8_parse_error (ty : Nat) (m : RpcMessage) (e : EValue)
    (h1 : m.type = ty) (h2 : m.parseBody = .error e) :
    events [.firstThenClose ty true, .next m] =
      [.released, .rejectCalled 0 e] ∧
    events [.waitNext ty true, .next m] = [.escaped e] := by
  constructor <;>
    simp [events, runInit, run, step, RpcMessageSubject.next,
      RpcMessageSubject.waitNext, RpcMessageSubject.firstThenClose,
      runExecutor, RpcMessageSubject.onReply, invokeListener,
      RpcMessageSubject.mkSubject, h1, h2]

/-- C8, witness for the amended theorem at type 5 and the type-5 reply
whose parse throws error 3. -/
theorem C8_parse_error_witness :
    (parseErrReply5.type = 5 ∧ parseErrReply5.parseBody = .error (.extErr 3)) ∧
    (events [.firstThenClose 5 true, .next parseErrReply5] =
      [.released, .rejectCalled 0 (.extErr 3)] ∧
    events [.waitNext 5 true, .next parseErrReply5] =
      [.escaped (.extErr 3)]) :=
  ⟨⟨rfl, rfl⟩, C8_parse_error 5 parseErrReply5 (.extErr 3) rfl rfl⟩

/-- C9: in `waitNext` and `firstThenClose` the type-equality check precedes
the error-tag check, so an error-tagged reply whose type tag equals the
awaited type resolves normally — with `undefined` resp. the raw message
when no schema is given, and with the parsed body when a schema is given
and the parse succeeds — and never reaches the error path. -/
theorem C9_match_precedes_error (ty : Nat) (m : RpcMessage) (b : Nat)
    (hTy : m.type = ty) (_hErr : m.isError = true) :
    events [.waitNext ty false, .next m] = [.resolveCalled 0 .undef] ∧
    events [.firstThenClose ty false, .next m] =
      [.released, .resolveCalled 0 (.rawMessage m)] ∧
    (m.parseBody = .ok b →
      events [.waitNext ty true, .next m] =
        [.resolveCalled 0 (.parsedBody b)] ∧
      events [.firstThenClose ty true, .next m] =
        [.released, .resolveCalled 0 (.parsedBody b)]) := by
  refine ⟨?_, ?_, fun hp => ⟨?_, ?_⟩⟩ <;>
    simp [events, runInit, run, step, RpcMessageSubject.next,
      RpcMessageSubject.waitNext, RpcMessageSubject.firstThenClose,
      runExecutor, RpcMessageSubject.onReply, invokeListener,
      RpcMessageSubject.mkSubject, hTy, *]

/-- C9, witness at type 5 and the error-tagged type-5 reply whose body
parses to 21. -/
theorem C9_match_precedes_error_witness :
    (errReply5.type = 5 ∧ errReply5.isError = true ∧
      errReply5.parseBody = .ok 21) ∧
    (events [.waitNext 5 false, .next errReply5] =
      [.resolveCalled 0 .undef] ∧
    events [.firstThenClose 5 false, .next errReply5] =
      [.released, .resolveCalled 0 (.rawMessage errReply5)] ∧
    events [.waitNext 5 true, .next errReply5] =
      [.resolveCalled 0 (.parsedBody 21)] ∧
    events [.firstThenClose 5 true, .next errReply5] =
      [.released, .resolveCalled 0 (.parsedBody 21)]) := by
  have h := C9_match_precedes_error 5 errReply5 21 rfl rfl
  exact ⟨⟨rfl, rfl, rfl⟩, h.1, h.2.1, (h.2.2 rfl).1, (h.2.2 rfl).2⟩

/-- C10: after `ackThenClose` settles via a delivered reply the rejection
callback is cleared, so a later `disconnect` invokes no rejection callback
(only `release`); after `waitNextMessage`, `waitNext` or `firstThenClose`
settle via a delivered reply the rejection callback installed by the
accessor remains in place, so a later `disconnect` still invokes it with
the disconnect error. -/
theorem C10_rejected_clearing (ty : Nat) (m : RpcMessage) (e : EValue) :
    (finalState [.ackThenClose, .next m]).rejected = none ∧
    events [.ackThenClose, .next m, .disconnect (some e)] =
      events [.ackThenClose, .next m] ++ [.released] ∧
    (finalState [.waitNextMessage, .next m]).rejected =
      some (.promiseReject 0) ∧
    events [.waitNextMessage, .next m, .disconnect (some e)] =
      [.resolveCalled 0 (.rawMessage m), .rejectCalled 0 e, .released] ∧
    (finalState [.waitNext ty false, .next m]).rejected =
      some (.promiseReject 0) ∧
    events [.waitNext ty false, .next m, .disconnect (some e)] =
      events [.waitNext ty false, .next m] ++ [.rejectCalled 0 e, .released] ∧
    (finalState [.firstThenClose ty false, .next m]).rejected =
      some (.promiseReject 0) ∧
    events [.firstThenClose ty false, .next m, .disconnect (some e)] =
      events [.firstThenClose ty false, .next m] ++
        [.rejectCalled 0 e, .released] := by
  refine ⟨?_, ?_, ?_, ?_, ?_, ?_, ?_, ?_⟩
  · by_cases h0 : m.type = rpcAck <;> cases hb : m.isError <;>
      simp [events, finalState, runInit, run, step, RpcMessageSubject.next,
        RpcMessageSubject.disconnect, RpcMessageSubject.ackThenClose,
        runExecutor, RpcMessageSubject.onReply, invokeListener,
        RpcMessageSubject.mkSubject, h0, hb]
  · by_cases h0 : m.type = rpcAck <;> cases hb : m.isError <;>
      simp [events, finalState, runInit, run, step, RpcMessageSubject.next,
        RpcMessageSubject.disconnect, RpcMessageSubject.ackThenClose,
        runExecutor, RpcMessageSubject.onReply, invokeListener,
        RpcMessageSubject.mkSubject, h0, hb]
  · simp [events, finalState, runInit, run, step, RpcMessageSubject.next,
      RpcMessageSubject.disconnect, RpcMessageSubject.waitNextMessage,
      runExecutor, RpcMessageSubject.onReply, invokeListener,
      RpcMessageSubject.mkSubject]
  · simp [events, finalState, runInit, run, step, RpcMessageSubject.next,
      RpcMessageSubject.disconnect, RpcMessageSubject.waitNextMessage,
      runExecutor, RpcMessageSubject.onReply, invokeListener,
      RpcMessageSubject.mkSubject]
  · by_cases h1 : m.type = ty <;> cases hb : m.isError <;>
      simp [events, finalState, runInit, run, step, RpcMessageSubject.next,
        RpcMessageSubject.disconnect, RpcMessageSubject.waitNext,
        runExecutor, RpcMessageSubject.onReply, invokeListener,
        RpcMessageSubject.mkSubject, h1, hb]
  · by_cases h1 : m.type = ty <;> cases hb : m.isError <;>
      simp [events, finalState, runInit, run, step, RpcMessageSubject.next,
        RpcMessageSubject.disconnect, RpcMessageSubject.waitNext,
        runExecutor, RpcMessageSubject.onReply, invokeListener,
        RpcMessageSubject.mkSubject, h1, hb]
  · by_cases h1 : m.type = ty <;> cases hb : m.isError <;>
      simp [events, finalState, runInit, run, step, RpcMessageSubject.next,
        RpcMessageSubject.disconnect, RpcMessageSubject.firstThenClose,
        runExecutor, RpcMessageSubject.onReply, invokeListener,
        RpcMessageSubject.mkSubject, h1, hb]
  · by_cases h1 : m.type = ty <;> cases hb : m.isError <;>
      simp [events, finalState, runInit, run, step, RpcMessageSubject.next,
        RpcMessageSubject.disconnect, RpcMessageSubject.firstThenClose,
        runExecutor, RpcMessageSubject.onReply, invokeListener,
        RpcMessageSubject.mkSubject, h1, hb]

end MessageSubject
